import Mathlib

/-!
Verification of the XQA precompiled-kernel dispatch logic
(`cpp/tensorrt_llm/kernels/decoderMaskedMultiheadAttention/decoderXQAImplPrecompiled.cpp`).

The C++ functions `XQAKernelList::supportConfig`, `XQAKernelList::run` (its
configuration-key derivation and launch-argument packing),
`XQAKernelList::mayHavePerfGain`, `XQAKernelList::loadXQAKernels` and
`XQAKernelLoader::Get` are shallowly embedded below.  Machine integers are
modelled by `Nat` (all the fields involved are non-negative counts in the
source); the single `float` computation of `mayHavePerfGain` is modelled
exactly over `ℚ`; CUDA driver calls are modelled by a deterministic `Driver`
record together with an explicit event trace.
-/

namespace XQAPrecompiled

/-- The fields of the runtime request structure `XQAParams` that are read by
the dispatch logic modelled here.  Counts are `Nat` (non-negative in the
source); `timestep` is the history length used by the perf heuristic. -/
structure XQAParams where
  head_size : Nat
  num_q_heads : Nat
  num_kv_heads : Nat
  beam_width : Nat
  batch_size : Nat
  multi_query_tokens : Bool
  multi_block_mode : Bool
  timestep : Nat
  generation_input_length : Nat
  paged_kv_cache : Bool
  tokens_per_block : Nat
  kv_cache_data_type : Nat
  kv_cache_quant_mode_int8 : Bool
  kv_cache_quant_mode_fp8 : Bool
 deriving DecidableEq, Repr

/-- `XQAKernelRuntimeHashKey`: the normalized configuration key used for the
kernel-handle map, with the field order of the C++ aggregate. -/
structure XQAKernelRuntimeHashKey where
  kv_data_type : Nat
  head_size : Nat
  beam_width : Nat
  num_q_heads_over_kv : Nat
  m_tilesize : Nat
  tokens_per_page : Nat
  paged_kv_cache : Bool
  multi_query_tokens : Bool
 deriving DecidableEq, Repr

/-- The configuration key `XQAKernelList::supportConfig` builds (lines
108–122): the effective head ratio is `0` for multi-query-token requests and
the tile size is fixed to `16` there; single-token requests use the raw
ratio for both fields. -/
def supportKeyOf (p : XQAParams) : XQAKernelRuntimeHashKey :=
  let num_q_heads_over_kv := p.num_q_heads / p.num_kv_heads
  let kernel_num_q_heads_over_kv := if p.multi_query_tokens then 0 else num_q_heads_over_kv
  let m_tilesize := if p.multi_query_tokens then 16 else num_q_heads_over_kv
  { kv_data_type := p.kv_cache_data_type
    head_size := p.head_size
    beam_width := p.beam_width
    num_q_heads_over_kv := kernel_num_q_heads_over_kv
    m_tilesize := m_tilesize
    tokens_per_page := if p.paged_kv_cache then p.tokens_per_block else 0
    paged_kv_cache := p.paged_kv_cache
    multi_query_tokens := p.multi_query_tokens }

/-- The configuration key `XQAKernelList::run` builds at dispatch time
(lines 207–217): the tile size for multi-query-token requests is chosen from
the request's query length (`16` when `qSeqLen ≤ 16`, else `32`). -/
def runKeyOf (p : XQAParams) : XQAKernelRuntimeHashKey :=
  let num_q_heads_over_kv := p.num_q_heads / p.num_kv_heads
  let qSeqLen := p.generation_input_length
  let mTileSize := if qSeqLen ≤ 16 then 16 else 32
  let kernel_num_q_heads_over_kv := if p.multi_query_tokens then 0 else num_q_heads_over_kv
  let kernel_m_tilesize := if p.multi_query_tokens then mTileSize else num_q_heads_over_kv
  { kv_data_type := p.kv_cache_data_type
    head_size := p.head_size
    beam_width := p.beam_width
    num_q_heads_over_kv := kernel_num_q_heads_over_kv
    m_tilesize := kernel_m_tilesize
    tokens_per_page := if p.paged_kv_cache then p.tokens_per_block else 0
    paged_kv_cache := p.paged_kv_cache
    multi_query_tokens := p.multi_query_tokens }

/-- The handle resolved for one loaded kernel (`XQAKernelFuncInfo`).  The
device function is modelled as the pair (module handle, entry-point name). -/
structure XQAKernelFuncInfo where
  mMetaInfoIndex : Nat
  mSharedMemBytes : Nat
  mDeviceFunction : Nat × Nat
  mKernelType : Nat
 deriving DecidableEq, Repr

/-- The fatal message of the head-ratio contract check (`TLLM_CHECK_WITH_INFO`
in both `supportConfig` and `run`). -/
def ratioCheckMsg : String := "numQHeads should be multiple of numKVHeads."

/-- `XQAKernelList::supportConfig` (lines 106–125): the head-ratio contract
check runs first (a violation is fatal, modelled as `Except.error`), then the
derived key is looked up in the handle map `fns`. -/
def supportConfig (p : XQAParams) (fns : XQAKernelRuntimeHashKey → Option XQAKernelFuncInfo) :
    Except String Bool :=
  if p.num_q_heads % p.num_kv_heads ≠ 0 then Except.error ratioCheckMsg
  else Except.ok (fns (supportKeyOf p)).isSome

/-- The fatal message of the dispatch-time lookup failure in `run`. -/
def lookupFailMsg : String := "XQAKernelFunc not found."

/-- The key derivation and handle lookup of `XQAKernelList::run` (lines
150–220): the head-ratio contract check runs first, then the dispatch-time
key is looked up; a miss is fatal. -/
def runLookup (p : XQAParams) (fns : XQAKernelRuntimeHashKey → Option XQAKernelFuncInfo) :
    Except String XQAKernelFuncInfo :=
  if p.num_q_heads % p.num_kv_heads ≠ 0 then Except.error ratioCheckMsg
  else
    match fns (runKeyOf p) with
    | some f => Except.ok f
    | none => Except.error lookupFailMsg

/-- `XQAKernelList::mayHavePerfGain` (lines 127–144).  The constants
`kMinHistoryTokensPerBlock` and `kEnableMinBlockFactor` live in
`decoderXQAConstants.h` (outside the file under study) and are passed as
parameters; the `float` product-and-compare is modelled exactly over `ℚ`.
Note the source computes `multi_block_count = history_length /
kMinHistoryTokensPerBlock` with no lower clamp: the truncating division
yields `0` when the history is shorter than one block. -/
def mayHavePerfGain (kMinHistoryTokensPerBlock : Nat) (kEnableMinBlockFactor : ℚ)
    (mForceXQA : Bool) (p : XQAParams) (multiprocessor_count : Nat) : Bool :=
  if mForceXQA || p.multi_query_tokens then true
  else
    let multi_block_count : Nat :=
      if p.multi_block_mode then p.timestep / kMinHistoryTokensPerBlock else 1
    let block_count : Nat := p.num_kv_heads * p.batch_size * multi_block_count
    decide ((block_count : ℚ) * kEnableMinBlockFactor ≥ (multiprocessor_count : ℚ))

/-- The eligibility heuristic exactly as the specification words it, for
comparison with `mayHavePerfGain`: the split factor is clamped below by `1`
(`max(1, historyLength / minHistoryTokensPerBlock)`). -/
def mayHavePerfGainSpec (kMinHistoryTokensPerBlock : Nat) (kEnableMinBlockFactor : ℚ)
    (mForceXQA : Bool) (p : XQAParams) (multiprocessor_count : Nat) : Bool :=
  if mForceXQA || p.multi_query_tokens then true
  else
    let splitFactor : Nat :=
      if p.multi_block_mode then max 1 (p.timestep / kMinHistoryTokensPerBlock) else 1
    let workBlocks : Nat := p.num_kv_heads * p.batch_size * splitFactor
    decide ((workBlocks : ℚ) * kEnableMinBlockFactor ≥ (multiprocessor_count : ℚ))

/-- A request exercising the heuristic with multi-block mode on but a history
shorter than one block (`timestep = 0`). -/
def paramsShortHistory : XQAParams :=
  { head_size := 128
    num_q_heads := 64
    num_kv_heads := 8
    beam_width := 1
    batch_size := 8
    multi_query_tokens := false
    multi_block_mode := true
    timestep := 0
    generation_input_length := 1
    paged_kv_cache := false
    tokens_per_block := 0
    kv_cache_data_type := 0
    kv_cache_quant_mode_int8 := false
    kv_cache_quant_mode_fp8 := false }

/-- C1, counterexample: with multi-block mode requested and a history of 0
tokens (shorter than one block of 512), the code's heuristic computes a
split factor of 0 — not `max(1, 0) = 1` as the claim states — so the work
estimate collapses to 0 and the heuristic answers `false` where the claim's
formula answers `true` (8 KV heads × batch 8 × 1 × factor 4 = 256 ≥ 1). -/
theorem c1_counterexample :
    mayHavePerfGainSpec 512 4 false paramsShortHistory 1 = true ∧
      mayHavePerfGain 512 4 false paramsShortHistory 1 = false := by
  constructor
  · norm_num [mayHavePerfGainSpec, paramsShortHistory]
  · norm_num [mayHavePerfGain, paramsShortHistory]

/-- C1, amended: `mayHavePerfGain` returns true if the force-XQA override is
set or the request uses multi-token speculative decoding; otherwise it
returns true iff `workBlocks × tuningFactor ≥ parallelismWidth` (inclusive),
where `workBlocks = KVheads × batch × splitFactor` and `splitFactor` is the
unclamped truncating quotient `historyLength / minHistoryTokensPerBlock`
when multi-block mode is requested (0 when the history is shorter than one
block), else 1. -/
theorem c1_amended (kMinHistoryTokensPerBlock : Nat) (kEnableMinBlockFactor : ℚ)
    (mForceXQA : Bool) (p : XQAParams) (multiprocessor_count : Nat) :
    mayHavePerfGain kMinHistoryTokensPerBlock kEnableMinBlockFactor mForceXQA p
        multiprocessor_count = true ↔
      (mForceXQA = true ∨ p.multi_query_tokens = true ∨
        ((p.num_kv_heads * p.batch_size *
            (if p.multi_block_mode then p.timestep / kMinHistoryTokensPerBlock else 1) : Nat) : ℚ)
              * kEnableMinBlockFactor ≥ (multiprocessor_count : ℚ)) := by
  unfold mayHavePerfGain
  rcases hf : mForceXQA with _ | _ <;> rcases hm : p.multi_query_tokens with _ | _ <;>
    simp [decide_eq_true_iff]

/-- C3: the dispatch-time configuration key of `run`: in multi-token mode the
effective head-ratio field is always 0 and the tile size is 16 for query
length ≤ 16 and 32 otherwise; in single-token mode both fields are the raw
ratio `num_q_heads / num_kv_heads`, unaffected by query length. -/
theorem c3_run_key_fields (p : XQAParams) :
    ((runKeyOf p).num_q_heads_over_kv, (runKeyOf p).m_tilesize) =
      if p.multi_query_tokens then
        (0, if p.generation_input_length ≤ 16 then 16 else 32)
      else
        (p.num_q_heads / p.num_kv_heads, p.num_q_heads / p.num_kv_heads) := by
  rcases hm : p.multi_query_tokens with _ | _ <;> simp [runKeyOf, hm]

/-- A multi-token request with query length 17 (> 16). -/
def paramsMultiTokenLong : XQAParams :=
  { head_size := 128
    num_q_heads := 32
    num_kv_heads := 4
    beam_width := 1
    batch_size := 1
    multi_query_tokens := true
    multi_block_mode := false
    timestep := 100
    generation_input_length := 17
    paged_kv_cache := false
    tokens_per_block := 0
    kv_cache_data_type := 0
    kv_cache_quant_mode_int8 := false
    kv_cache_quant_mode_fp8 := false }

/-- A placeholder handle used to populate concrete handle maps. -/
def someFuncInfo : XQAKernelFuncInfo :=
  { mMetaInfoIndex := 0, mSharedMemBytes := 0, mDeviceFunction := (0, 0), mKernelType := 0 }

/-- C4, counterexample: for a multi-token request with query length 17 the
key derived by `supportConfig` (tile size 16) differs from the key derived
by `run` (tile size 32); with a handle map that contains exactly the
`supportConfig` key, `supportConfig` reports the request supported while the
dispatch-time lookup in `run` fails fatally. -/
theorem c4_counterexample :
    supportKeyOf paramsMultiTokenLong ≠ runKeyOf paramsMultiTokenLong ∧
      supportConfig paramsMultiTokenLong
          (fun k => if k = supportKeyOf paramsMultiTokenLong then some someFuncInfo else none) =
        Except.ok true ∧
      runLookup paramsMultiTokenLong
          (fun k => if k = supportKeyOf paramsMultiTokenLong then some someFuncInfo else none) =
        Except.error lookupFailMsg := by
  refine ⟨by decide, rfl, rfl⟩

/-- C4, amended: the key derived by `supportConfig` coincides with the key
derived at dispatch time by `run` exactly when the request is single-token
or its query length is ≤ 16; a supported multi-token request with query
length > 16 is looked up under a different key at dispatch time. -/
theorem c4_amended (p : XQAParams) :
    supportKeyOf p = runKeyOf p ↔
      (p.multi_query_tokens = false ∨ p.generation_input_length ≤ 16) := by
  rcases hm : p.multi_query_tokens with _ | _
  · simp [supportKeyOf, runKeyOf, hm]
  · by_cases hq : p.generation_input_length ≤ 16
    · simp [supportKeyOf, runKeyOf, hm, hq]
    · simp [supportKeyOf, runKeyOf, hm, hq, XQAKernelRuntimeHashKey.mk.injEq]

/-- C7: a request whose query-head count is not an exact multiple of its
KV-head count makes both `supportConfig` and `run` fail the fatal
`TLLM_CHECK_WITH_INFO` head-ratio contract check; the failure is independent
of the handle map, so no key derivation or lookup result is ever consulted. -/
theorem c7_ratio_check (p : XQAParams)
    (h : p.num_q_heads % p.num_kv_heads ≠ 0) :
    (∀ fns, supportConfig p fns = Except.error ratioCheckMsg) ∧
      (∀ fns, runLookup p fns = Except.error ratioCheckMsg) := by
  constructor
  · intro fns
    simp [supportConfig, h]
  · intro fns
    simp [runLookup, h]

/-- A request with 3 query heads and 2 KV heads (ratio not integral). -/
def paramsBadRatio : XQAParams :=
  { paramsShortHistory with num_q_heads := 3, num_kv_heads := 2 }

/-- C7, witness: at the concrete request with 3 query heads over 2 KV heads,
both paths fail with the contract-violation message, for concrete maps. -/
theorem c7_ratio_check_witness :
    supportConfig paramsBadRatio (fun _ => none) = Except.error ratioCheckMsg ∧
      runLookup paramsBadRatio (fun _ => some someFuncInfo) = Except.error ratioCheckMsg :=
  ⟨(c7_ratio_check paramsBadRatio (by decide)).1 _,
   (c7_ratio_check paramsBadRatio (by decide)).2 _⟩

/-- The positional launch arguments of the single-token branch of `run`
(lines 252–294), tagged by the source expression whose address is passed. -/
inductive LaunchArg where
  | numKHeads
  | output
  | qInput
  | kvCacheParams
  | beamSearchParams
  | batchSize
  | kvScaleQuantOrig
  | tensorMap
  | semaphores
  | scratch
  | nullTerminator
 deriving DecidableEq, Repr

/-- The state of the argument-array construction: the slots written so far
and whether every `TLLM_CHECK` / raw array write so far stayed in bounds. -/
structure ParamBuildState where
  params : List LaunchArg
  checkOk : Bool
 deriving DecidableEq, Repr

/-- The `appendParam` lambda of `run` (lines 262–266): the bound check
`TLLM_CHECK(idxNextParam < maxNbKernelParams)` is modelled by the sticky
`checkOk` flag. -/
def appendParam (maxNbKernelParams : Nat) (st : ParamBuildState) (a : LaunchArg) :
    ParamBuildState :=
  if st.checkOk ∧ st.params.length < maxNbKernelParams then
    { params := st.params ++ [a], checkOk := true }
  else
    { st with checkOk := false }

/-- Size of the raw `kernelParams` array (`kMAX_NB_KERNEL_PARAMS`). -/
def kMAX_NB_KERNEL_PARAMS : Nat := 11

/-- The single-token launch-argument construction of `run` (lines 258–285):
the conditional appends follow the source order, and the final raw write
`kernelParams[idxNextParam] = nullptr` is modelled as an append that is only
valid while the index stays below the array size. -/
def singleTokenBuild (beam_width : Nat) (isGmmaKernel : Bool) : ParamBuildState :=
  let maxNb : Nat := if isGmmaKernel then 11 else 10
  let st : ParamBuildState := { params := [], checkOk := true }
  let st := appendParam maxNb st .numKHeads
  let st := appendParam maxNb st .output
  let st := appendParam maxNb st .qInput
  let st := appendParam maxNb st .kvCacheParams
  let st := if 1 < beam_width then appendParam maxNb st .beamSearchParams else st
  let st := appendParam maxNb st .batchSize
  let st := appendParam maxNb st .kvScaleQuantOrig
  let st := if isGmmaKernel then appendParam maxNb st .tensorMap else st
  let st := appendParam maxNb st .semaphores
  let st := appendParam maxNb st .scratch
  if st.params.length < kMAX_NB_KERNEL_PARAMS then
    { params := st.params ++ [.nullTerminator], checkOk := st.checkOk }
  else
    { st with checkOk := false }

/-- C2: the single-token launch-argument array holds, in strict source
order, {KV head count, output, rotary-processed query, KV-cache block,
[beam-search block iff beamWidth > 1], batch size, KV dequant scale,
[tensor descriptor iff the resolved kernel is the Hopper-specialized one],
semaphores, scratch}, is null-terminated, every bound check passes, and its
entry count (terminator included) is 9 with neither optional entry, 10 with
exactly one, and 11 with both. -/
theorem c2_single_token_args (beam_width : Nat) (isGmmaKernel : Bool) :
    (singleTokenBuild beam_width isGmmaKernel).params =
        [LaunchArg.numKHeads, LaunchArg.output, LaunchArg.qInput, LaunchArg.kvCacheParams] ++
          (if 1 < beam_width then [LaunchArg.beamSearchParams] else []) ++
          [LaunchArg.batchSize, LaunchArg.kvScaleQuantOrig] ++
          (if isGmmaKernel then [LaunchArg.tensorMap] else []) ++
          [LaunchArg.semaphores, LaunchArg.scratch, LaunchArg.nullTerminator] ∧
      (singleTokenBuild beam_width isGmmaKernel).checkOk = true ∧
      (singleTokenBuild beam_width isGmmaKernel).params.getLast? =
        some LaunchArg.nullTerminator ∧
      (singleTokenBuild beam_width isGmmaKernel).params.length =
        9 + (if 1 < beam_width then 1 else 0) + (if isGmmaKernel then 1 else 0) := by
  by_cases hb : 1 < beam_width <;>
    rcases hg : isGmmaKernel with _ | _ <;>
      simp [singleTokenBuild, appendParam, kMAX_NB_KERNEL_PARAMS, hb, List.getLast?]

/-- The positional launch arguments of the multi-token branch of `run`
(lines 227–239), tagged by source expression; scalar arguments carry the
value the source would pass. -/
inductive MTArg where
  | qSeqLen (v : Nat)
  | numKHeads (v : Nat)
  | log2HeadGrpSize (v : Nat)
  | output
  | qInput
  | maskPtr
  | kvCacheParams
  | batchSize (v : Nat)
  | kvCacheQuantOrig (v : ℚ)
  | scratch
 deriving DecidableEq, Repr

/-- The multi-token launch-argument construction of `run` (lines 227–239).
The source sets the local `float kvCacheQuantOrig = 1.0f` unconditionally
(fp8/int8 KV-cache kernels are not wired up on this path) and passes its
address as the ninth positional argument.  `log2` of the head ratio is exact
for the power-of-two ratios these kernels support and is modelled by
`Nat.log2`. -/
def multiTokenKernelParams (p : XQAParams) : List MTArg :=
  let qSeqLen := p.generation_input_length
  let log2HeadGrpSize := Nat.log2 (p.num_q_heads / p.num_kv_heads)
  let kvCacheQuantOrig : ℚ := 1
  [MTArg.qSeqLen qSeqLen, MTArg.numKHeads p.num_kv_heads,
    MTArg.log2HeadGrpSize log2HeadGrpSize, MTArg.output, MTArg.qInput, MTArg.maskPtr,
    MTArg.kvCacheParams, MTArg.batchSize p.batch_size,
    MTArg.kvCacheQuantOrig kvCacheQuantOrig, MTArg.scratch]

/-- C9: in multi-token speculative mode the ninth positional argument (index
8) of the kernel launch is the constant KV dequantization scale `1.0`, for
every request — in particular regardless of the request's KV-cache
quantization mode flags, which the argument list does not consult. -/
theorem c9_const_kv_scale (p : XQAParams) :
    (multiTokenKernelParams p).get? 8 = some (MTArg.kvCacheQuantOrig 1) ∧
      (multiTokenKernelParams p).length = 10 := by
  constructor <;> rfl

/-- One catalog descriptor (`XQAKernelMetaInfo`): the fields
`loadXQAKernels` reads.  The binary blob reference `mCubin` is `none` when
the cubin pointer is null (variants superseded by the JIT path); blob
references and entry-point names are abstract identifiers. -/
structure TKernelMeta where
  mSM : Nat
  mDataType : Nat
  mCubin : Option Nat
  mFuncName : Nat
  mKVDataType : Nat
  mHeadDim : Nat
  mBeamWidth : Nat
  mNumQHeadsOverKV : Nat
  mMTileSize : Nat
  mTokensPerPage : Nat
  mPagedKVCache : Bool
  mMultiQueryTokens : Bool
 deriving DecidableEq, Repr

/-- The load-time configuration key built from a descriptor (lines 98–100). -/
def keyOfMeta (m : TKernelMeta) : XQAKernelRuntimeHashKey :=
  { kv_data_type := m.mKVDataType
    head_size := m.mHeadDim
    beam_width := m.mBeamWidth
    num_q_heads_over_kv := m.mNumQHeadsOverKV
    m_tilesize := m.mMTileSize
    tokens_per_page := m.mTokensPerPage
    paged_kv_cache := m.mPagedKVCache
    multi_query_tokens := m.mMultiQueryTokens }

/-- The CUDA driver, modelled deterministically: loading a blob always
yields the blob reference itself as module handle, and the embedded module
globals `smemSize` (required) and `kernelType` (optional) are functions of
the module handle. -/
structure Driver where
  smemSize : Nat → Nat
  kernelType : Nat → Option Nat

/-- Driver calls issued during loading, recorded as a trace. -/
inductive DriverEvent where
  | moduleLoadData (blob : Nat)
  | moduleGetFunction (hmod : Nat) (name : Nat)
  | funcSetAttribute (hmod : Nat) (name : Nat) (bytes : Nat)
 deriving DecidableEq, Repr

/-- The mutable maps of `XQAKernelList`: `mModules` is the set of blob
references already loaded as modules (the module handle equals the blob
reference under the deterministic driver), and `mFunctions` the handle map
in insertion order. -/
structure XQAKernelListState where
  mModules : List Nat
  mFunctions : List (XQAKernelRuntimeHashKey × XQAKernelFuncInfo)
 deriving DecidableEq, Repr

/-- The state of a freshly constructed `XQAKernelList` (both maps empty). -/
def initState : XQAKernelListState := { mModules := [], mFunctions := [] }

/-- `std::unordered_map::insert`: inserts only when the key is absent. -/
def insertIfAbsent (l : List (XQAKernelRuntimeHashKey × XQAKernelFuncInfo))
    (k : XQAKernelRuntimeHashKey) (v : XQAKernelFuncInfo) :
    List (XQAKernelRuntimeHashKey × XQAKernelFuncInfo) :=
  if l.any (fun e => decide (e.1 = k)) then l else l ++ [(k, v)]

/-- The body of the descriptor loop of `loadXQAKernels` (lines 62–103) for
the descriptor at catalog index `im.1`: skip on architecture/type mismatch
or absent blob; otherwise load the blob as a module unless already loaded,
resolve the entry point, read the module globals, raise the dynamic
shared-memory attribute when the requirement is at least 46 KiB, and insert
the resolved handle under the descriptor's key. -/
def processMeta (driver : Driver) (mSM mDataType : Nat)
    (acc : XQAKernelListState × List DriverEvent) (im : Nat × TKernelMeta) :
    XQAKernelListState × List DriverEvent :=
  let st := acc.1
  let evs := acc.2
  let kernelMeta := im.2
  if kernelMeta.mSM ≠ mSM ∨ kernelMeta.mDataType ≠ mDataType then acc
  else
    match kernelMeta.mCubin with
    | none => acc
    | some cubin =>
      let mModules1 :=
        if cubin ∈ st.mModules then st.mModules else st.mModules ++ [cubin]
      let evs1 :=
        if cubin ∈ st.mModules then evs else evs ++ [DriverEvent.moduleLoadData cubin]
      let evs2 := evs1 ++ [DriverEvent.moduleGetFunction cubin kernelMeta.mFuncName]
      let smem := driver.smemSize cubin
      let evs3 :=
        if 46 * 1024 ≤ smem then
          evs2 ++ [DriverEvent.funcSetAttribute cubin kernelMeta.mFuncName smem]
        else evs2
      let funcInfo : XQAKernelFuncInfo :=
        { mMetaInfoIndex := im.1
          mSharedMemBytes := smem
          mDeviceFunction := (cubin, kernelMeta.mFuncName)
          mKernelType := (driver.kernelType cubin).getD 0 }
      ({ mModules := mModules1
         mFunctions := insertIfAbsent st.mFunctions (keyOfMeta kernelMeta) funcInfo },
        evs3)

/-- `XQAKernelList::loadXQAKernels` (lines 56–104): early return when the
handle map is already populated, otherwise one pass over the catalog. -/
def loadXQAKernels (driver : Driver) (metas : List TKernelMeta) (mSM mDataType : Nat)
    (st : XQAKernelListState) : XQAKernelListState × List DriverEvent :=
  if st.mFunctions ≠ [] then (st, [])
  else metas.enum.foldl (processMeta driver mSM mDataType) (st, [])

/-- The blob reference of a module-load event, if any. -/
def loadedBlob? : DriverEvent → Option Nat
  | DriverEvent.moduleLoadData b => some b
  | _ => none

/-- Blob references loaded as modules over a trace, in order. -/
def loadedBlobs (evs : List DriverEvent) : List Nat :=
  evs.filterMap loadedBlob?

@[simp] theorem loadedBlobs_append (a b : List DriverEvent) :
    loadedBlobs (a ++ b) = loadedBlobs a ++ loadedBlobs b :=
  List.filterMap_append a b loadedBlob?

@[simp] theorem loadedBlobs_nil : loadedBlobs [] = [] := rfl

@[simp] theorem loadedBlobs_load (b : Nat) :
    loadedBlobs [DriverEvent.moduleLoadData b] = [b] := rfl

@[simp] theorem loadedBlobs_get_fn (h n : Nat) :
    loadedBlobs [DriverEvent.moduleGetFunction h n] = [] := rfl

@[simp] theorem loadedBlobs_set_attr (h n b : Nat) :
    loadedBlobs [DriverEvent.funcSetAttribute h n b] = [] := rfl

@[simp] theorem loadedBlobs_cons_load (b : Nat) (l : List DriverEvent) :
    loadedBlobs (DriverEvent.moduleLoadData b :: l) = b :: loadedBlobs l := rfl

@[simp] theorem loadedBlobs_cons_get_fn (h n : Nat) (l : List DriverEvent) :
    loadedBlobs (DriverEvent.moduleGetFunction h n :: l) = loadedBlobs l := rfl

@[simp] theorem loadedBlobs_cons_set_attr (h n b : Nat) (l : List DriverEvent) :
    loadedBlobs (DriverEvent.funcSetAttribute h n b :: l) = loadedBlobs l := rfl

/-- For a matching descriptor with a blob, one loop iteration loads the blob
exactly when it was not already a loaded module, in both trace and state. -/
theorem processMeta_trace_modules (d : Driver) (sm dt : Nat)
    (acc : XQAKernelListState × List DriverEvent) (im : Nat × TKernelMeta) (cubin : Nat)
    (hm : ¬(im.2.mSM ≠ sm ∨ im.2.mDataType ≠ dt)) (hc : im.2.mCubin = some cubin) :
    loadedBlobs (processMeta d sm dt acc im).2 =
        loadedBlobs acc.2 ++ (if cubin ∈ acc.1.mModules then [] else [cubin]) ∧
      (processMeta d sm dt acc im).1.mModules =
        (if cubin ∈ acc.1.mModules then acc.1.mModules else acc.1.mModules ++ [cubin]) := by
  by_cases hmem : cubin ∈ acc.1.mModules <;>
    by_cases hth : 46 * 1024 ≤ d.smemSize cubin <;>
      simp [processMeta, hm, hc, hmem, hth]

theorem insertIfAbsent_ne_nil (l : List (XQAKernelRuntimeHashKey × XQAKernelFuncInfo))
    (k : XQAKernelRuntimeHashKey) (v : XQAKernelFuncInfo) :
    insertIfAbsent l k v ≠ [] := by
  unfold insertIfAbsent
  split
  · intro h
    subst h
    simp at *
  · simp

/-- Each loop iteration either leaves the accumulator untouched or leaves
the handle map non-empty. -/
theorem processMeta_cases (d : Driver) (sm dt : Nat)
    (acc : XQAKernelListState × List DriverEvent) (im : Nat × TKernelMeta) :
    processMeta d sm dt acc im = acc ∨
      (processMeta d sm dt acc im).1.mFunctions ≠ [] := by
  by_cases h1 : im.2.mSM ≠ sm ∨ im.2.mDataType ≠ dt
  · left
    simp [processMeta, h1]
  · rcases hc : im.2.mCubin with _ | cubin
    · left
      simp [processMeta, h1, hc]
    · right
      simp only [processMeta, h1, hc, if_neg, ite_false]
      simp [h1]
      exact insertIfAbsent_ne_nil _ _ _

/-- A non-empty handle map stays non-empty across one loop iteration. -/
theorem processMeta_functions_ne_nil (d : Driver) (sm dt : Nat)
    (acc : XQAKernelListState × List DriverEvent) (im : Nat × TKernelMeta)
    (h : acc.1.mFunctions ≠ []) :
    (processMeta d sm dt acc im).1.mFunctions ≠ [] := by
  rcases processMeta_cases d sm dt acc im with heq | hne
  · rw [heq]; exact h
  · exact hne

theorem foldl_processMeta_functions_ne_nil (d : Driver) (sm dt : Nat)
    (l : List (Nat × TKernelMeta)) (acc : XQAKernelListState × List DriverEvent)
    (h : acc.1.mFunctions ≠ []) :
    (l.foldl (processMeta d sm dt) acc).1.mFunctions ≠ [] := by
  induction l generalizing acc with
  | nil => exact h
  | cons x xs ih =>
    exact ih (processMeta d sm dt acc x) (processMeta_functions_ne_nil d sm dt acc x h)

/-- If a whole pass over the catalog ends with an empty handle map, the pass
changed nothing and issued no driver call. -/
theorem foldl_processMeta_empty (d : Driver) (sm dt : Nat)
    (l : List (Nat × TKernelMeta)) (acc : XQAKernelListState × List DriverEvent)
    (h : (l.foldl (processMeta d sm dt) acc).1.mFunctions = []) :
    l.foldl (processMeta d sm dt) acc = acc := by
  induction l generalizing acc with
  | nil => rfl
  | cons x xs ih =>
    rcases processMeta_cases d sm dt acc x with heq | hne
    · have := ih (processMeta d sm dt acc x) (by simpa [List.foldl_cons] using h)
      simpa [List.foldl_cons, heq] using this
    · exfalso
      exact foldl_processMeta_functions_ne_nil d sm dt xs _ hne
        (by simpa [List.foldl_cons] using h)

/-- One loop iteration preserves: the blobs loaded so far are pairwise
distinct, and each of them is recorded in `mModules`. -/
theorem processMeta_load_inv (d : Driver) (sm dt : Nat)
    (acc : XQAKernelListState × List DriverEvent) (im : Nat × TKernelMeta)
    (h1 : (loadedBlobs acc.2).Nodup)
    (h2 : ∀ b ∈ loadedBlobs acc.2, b ∈ acc.1.mModules) :
    (loadedBlobs (processMeta d sm dt acc im).2).Nodup ∧
      ∀ b ∈ loadedBlobs (processMeta d sm dt acc im).2,
        b ∈ (processMeta d sm dt acc im).1.mModules := by
  by_cases hm : im.2.mSM ≠ sm ∨ im.2.mDataType ≠ dt
  · simp only [processMeta, hm, if_true, ite_true]
    exact ⟨h1, h2⟩
  · rcases hc : im.2.mCubin with _ | cubin
    · simp only [processMeta, hm, hc, if_false, ite_false]
      exact ⟨h1, h2⟩
    · obtain ⟨ht, hmods⟩ := processMeta_trace_modules d sm dt acc im cubin hm hc
      rw [ht, hmods]
      by_cases hmem : cubin ∈ acc.1.mModules
      · rw [if_pos hmem, if_pos hmem, List.append_nil]
        exact ⟨h1, h2⟩
      · rw [if_neg hmem, if_neg hmem]
        constructor
        · rw [List.nodup_append]
          refine ⟨h1, List.nodup_singleton cubin, ?_⟩
          intro b hb hb'
          rcases List.mem_singleton.1 hb' with rfl
          exact hmem (h2 b hb)
        · intro b hb
          rcases List.mem_append.1 hb with hb | hb
          · exact List.mem_append_left _ (h2 b hb)
          · exact List.mem_append_right _ hb

theorem foldl_processMeta_load_inv (d : Driver) (sm dt : Nat)
    (l : List (Nat × TKernelMeta)) :
    ∀ acc : XQAKernelListState × List DriverEvent,
      (loadedBlobs acc.2).Nodup → (∀ b ∈ loadedBlobs acc.2, b ∈ acc.1.mModules) →
      (loadedBlobs (l.foldl (processMeta d sm dt) acc).2).Nodup := by
  induction l with
  | nil =>
    intro acc h1 _
    exact h1
  | cons x xs ih =>
    intro acc h1 h2
    have h := processMeta_load_inv d sm dt acc x h1 h2
    exact ih _ h.1 h.2

/-- C5: `loadXQAKernels` is idempotent — with a non-empty handle map it
returns at once, changing nothing and issuing no driver call; a second call
after any first call reproduces the first call's handle map and issues no
driver call; and over one full load from a fresh registry no blob is loaded
as a module twice. -/
theorem c5_ensure_loaded_idempotent :
    (∀ (d : Driver) (metas : List TKernelMeta) (sm dt : Nat) (st : XQAKernelListState),
        st.mFunctions ≠ [] → loadXQAKernels d metas sm dt st = (st, [])) ∧
      (∀ (d : Driver) (metas : List TKernelMeta) (sm dt : Nat) (st : XQAKernelListState),
        loadXQAKernels d metas sm dt (loadXQAKernels d metas sm dt st).1 =
          ((loadXQAKernels d metas sm dt st).1, [])) ∧
      ∀ (d : Driver) (metas : List TKernelMeta) (sm dt : Nat),
        (loadedBlobs (loadXQAKernels d metas sm dt initState).2).Nodup := by
  refine ⟨?_, ?_, ?_⟩
  · intro d metas sm dt st h
    simp [loadXQAKernels, h]
  · intro d metas sm dt st
    by_cases h : st.mFunctions = []
    · by_cases h2 : (metas.enum.foldl (processMeta d sm dt) (st, [])).1.mFunctions = []
      · have hid := foldl_processMeta_empty d sm dt metas.enum (st, []) h2
        simp [loadXQAKernels, h, hid]
      · simp [loadXQAKernels, h, h2]
    · simp [loadXQAKernels, h]
  · intro d metas sm dt
    have hini : initState.mFunctions = [] := rfl
    simp only [loadXQAKernels, hini, ne_eq, not_true_eq_false, if_false, ite_false,
      not_false_eq_true]
    exact foldl_processMeta_load_inv d sm dt metas.enum (initState, [])
      (by simp [loadedBlobs]) (by simp [loadedBlobs])

/-- A concrete driver for witnesses: every module needs 1 KiB of shared
memory and embeds no `kernelType` symbol. -/
def driverEx : Driver := { smemSize := fun _ => 1024, kernelType := fun _ => none }

/-- A descriptor whose cubin pointer is null (JIT-superseded variant). -/
def metaNoCubin : TKernelMeta :=
  { mSM := 8
    mDataType := 0
    mCubin := none
    mFuncName := 7
    mKVDataType := 0
    mHeadDim := 128
    mBeamWidth := 1
    mNumQHeadsOverKV := 8
    mMTileSize := 8
    mTokensPerPage := 0
    mPagedKVCache := false
    mMultiQueryTokens := false }

/-- The same descriptor with an embedded binary blob (reference 5). -/
def metaWithCubin : TKernelMeta := { metaNoCubin with mCubin := some 5 }

/-- A registry state whose handle map is already populated. -/
def stNonEmpty : XQAKernelListState :=
  { mModules := [], mFunctions := [(keyOfMeta metaWithCubin, someFuncInfo)] }

/-- C5, witness: at a concrete populated registry, `loadXQAKernels` returns
the state unchanged and issues no driver call. -/
theorem c5_ensure_loaded_idempotent_witness :
    loadXQAKernels driverEx [metaNoCubin, metaWithCubin] 8 0 stNonEmpty = (stNonEmpty, []) :=
  c5_ensure_loaded_idempotent.1 driverEx [metaNoCubin, metaWithCubin] 8 0 stNonEmpty
    (by decide)

theorem insertIfAbsent_mem (l : List (XQAKernelRuntimeHashKey × XQAKernelFuncInfo))
    (k : XQAKernelRuntimeHashKey) (v : XQAKernelFuncInfo)
    (e : XQAKernelRuntimeHashKey × XQAKernelFuncInfo)
    (h : e ∈ insertIfAbsent l k v) : e ∈ l ∨ e = (k, v) := by
  unfold insertIfAbsent at h
  split at h
  · exact Or.inl h
  · rcases List.mem_append.1 h with h | h
    · exact Or.inl h
    · exact Or.inr (List.mem_singleton.1 h)

/-- An entry present after one loop iteration was either already present or
was produced by this iteration's descriptor, which then passed the
architecture/type filter and carried a binary blob. -/
theorem processMeta_mem (d : Driver) (sm dt : Nat)
    (acc : XQAKernelListState × List DriverEvent) (im : Nat × TKernelMeta)
    (e : XQAKernelRuntimeHashKey × XQAKernelFuncInfo)
    (h : e ∈ (processMeta d sm dt acc im).1.mFunctions) :
    e ∈ acc.1.mFunctions ∨
      (e.2.mMetaInfoIndex = im.1 ∧ im.2.mCubin ≠ none ∧ im.2.mSM = sm ∧
        im.2.mDataType = dt) := by
  by_cases hm : im.2.mSM ≠ sm ∨ im.2.mDataType ≠ dt
  · left
    simpa [processMeta, hm] using h
  · push_neg at hm
    rcases hc : im.2.mCubin with _ | cubin
    · left
      simpa [processMeta, hm.1, hm.2, hc] using h
    · simp only [processMeta, hm.1, hm.2, hc, ne_eq, not_true_eq_false, or_self, if_false,
        ite_false] at h
      rcases insertIfAbsent_mem _ _ _ _ h with h' | h'
      · exact Or.inl h'
      · right
        refine ⟨?_, by simp [hc], hm.1, hm.2⟩
        rw [h']

theorem foldl_processMeta_mem (d : Driver) (sm dt : Nat)
    (l : List (Nat × TKernelMeta)) :
    ∀ (acc : XQAKernelListState × List DriverEvent)
      (e : XQAKernelRuntimeHashKey × XQAKernelFuncInfo),
      e ∈ (l.foldl (processMeta d sm dt) acc).1.mFunctions →
      e ∈ acc.1.mFunctions ∨
        ∃ i m, (i, m) ∈ l ∧ e.2.mMetaInfoIndex = i ∧ m.mCubin ≠ none ∧
          m.mSM = sm ∧ m.mDataType = dt := by
  induction l with
  | nil =>
    intro acc e h
    exact Or.inl h
  | cons x xs ih =>
    intro acc e h
    rcases ih (processMeta d sm dt acc x) e h with h' | ⟨i, m, hm, rest⟩
    · rcases processMeta_mem d sm dt acc x e h' with h'' | ⟨h1, h2, h3, h4⟩
      · exact Or.inl h''
      · exact Or.inr ⟨x.1, x.2, List.mem_cons_self x xs, h1, h2, h3, h4⟩
    · exact Or.inr ⟨i, m, List.mem_cons_of_mem x hm, rest⟩

/-- C6: a catalog descriptor whose binary blob reference is absent is
silently skipped — the loop iteration changes neither the registry state nor
the driver-call trace — and every entry of the handle map produced by a full
load from a fresh registry originates from a descriptor that carries a blob
(and matches the registry's architecture and numeric type). -/
theorem c6_absent_blob_skipped :
    (∀ (d : Driver) (sm dt : Nat) (acc : XQAKernelListState × List DriverEvent)
        (i : Nat) (m : TKernelMeta), m.mCubin = none →
        processMeta d sm dt acc (i, m) = acc) ∧
      ∀ (d : Driver) (metas : List TKernelMeta) (sm dt : Nat)
        (e : XQAKernelRuntimeHashKey × XQAKernelFuncInfo),
        e ∈ (loadXQAKernels d metas sm dt initState).1.mFunctions →
        ∃ i m, (i, m) ∈ metas.enum ∧ e.2.mMetaInfoIndex = i ∧ m.mCubin ≠ none ∧
          m.mSM = sm ∧ m.mDataType = dt := by
  constructor
  · intro d sm dt acc i m hc
    by_cases hm : m.mSM ≠ sm ∨ m.mDataType ≠ dt
    · simp [processMeta, hm]
    · simp [processMeta, hm, hc]
  · intro d metas sm dt e h
    have hini : initState.mFunctions = [] := rfl
    simp only [loadXQAKernels, hini, ne_eq, not_true_eq_false, if_false, ite_false,
      not_false_eq_true] at h
    rcases foldl_processMeta_mem d sm dt metas.enum (initState, []) e h with h' | h'
    · simp [initState] at h'
    · exact h'

/-- The handle-map entry produced by loading the catalog
`[metaNoCubin, metaWithCubin]` (only the second descriptor has a blob). -/
def entryEx : XQAKernelRuntimeHashKey × XQAKernelFuncInfo :=
  (keyOfMeta metaWithCubin,
    { mMetaInfoIndex := 1
      mSharedMemBytes := 1024
      mDeviceFunction := (5, 7)
      mKernelType := 0 })

/-- C6, witness: the blob-less descriptor leaves a concrete accumulator
untouched, and the one entry the concrete load produces traces back to the
descriptor that does carry a blob. -/
theorem c6_absent_blob_skipped_witness :
    processMeta driverEx 8 0 (initState, []) (0, metaNoCubin) = (initState, []) ∧
      ∃ i m, (i, m) ∈ ([metaNoCubin, metaWithCubin] : List TKernelMeta).enum ∧
        entryEx.2.mMetaInfoIndex = i ∧ m.mCubin ≠ none ∧ m.mSM = 8 ∧ m.mDataType = 0 :=
  ⟨c6_absent_blob_skipped.1 driverEx 8 0 (initState, []) 0 metaNoCubin rfl,
   c6_absent_blob_skipped.2 driverEx [metaNoCubin, metaWithCubin] 8 0 entryEx (by decide)⟩

/-- C8, amended: one loop iteration for a matching descriptor with a blob
appends, to the driver trace, a raise of the entry point's maximum dynamic
shared-memory attribute exactly when the module's shared-memory requirement
is at least the fixed 46 KiB threshold (the source comparison is the
inclusive `>= 46 * 1024`); below the threshold no attribute call is
issued. -/
theorem c8_shared_mem_attribute (d : Driver) (sm dt : Nat) (st : XQAKernelListState)
    (evs : List DriverEvent) (i : Nat) (m : TKernelMeta) (c : Nat)
    (hsm : m.mSM = sm) (hdt : m.mDataType = dt) (hc : m.mCubin = some c) :
    ∃ tail, (processMeta d sm dt (st, evs) (i, m)).2 = evs ++ tail ∧
      (DriverEvent.funcSetAttribute c m.mFuncName (d.smemSize c) ∈ tail ↔
        46 * 1024 ≤ d.smemSize c) ∧
      ∀ h n b, DriverEvent.funcSetAttribute h n b ∈ tail → 46 * 1024 ≤ d.smemSize c := by
  by_cases hmem : c ∈ st.mModules <;> by_cases hth : 46 * 1024 ≤ d.smemSize c
  · refine ⟨[DriverEvent.moduleGetFunction c m.mFuncName,
      DriverEvent.funcSetAttribute c m.mFuncName (d.smemSize c)], ?_, ?_, ?_⟩
    · simp [processMeta, hsm, hdt, hc, hmem, hth]
    · simp [hth]
    · intro h n b hb
      exact hth
  · refine ⟨[DriverEvent.moduleGetFunction c m.mFuncName], ?_, ?_, ?_⟩
    · simp [processMeta, hsm, hdt, hc, hmem, hth]
    · simp [hth]
    · intro h n b hb
      simp at hb
  · refine ⟨[DriverEvent.moduleLoadData c, DriverEvent.moduleGetFunction c m.mFuncName,
      DriverEvent.funcSetAttribute c m.mFuncName (d.smemSize c)], ?_, ?_, ?_⟩
    · simp [processMeta, hsm, hdt, hc, hmem, hth]
    · simp [hth]
    · intro h n b hb
      exact hth
  · refine ⟨[DriverEvent.moduleLoadData c, DriverEvent.moduleGetFunction c m.mFuncName],
      ?_, ?_, ?_⟩
    · simp [processMeta, hsm, hdt, hc, hmem, hth]
    · simp [hth]
    · intro h n b hb
      simp at hb

/-- A driver whose modules require exactly 46 KiB of shared memory. -/
def driverBoundary : Driver :=
  { smemSize := fun _ => 46 * 1024, kernelType := fun _ => none }

/-- C8, counterexample: at a shared-memory requirement of exactly 46 KiB the
loader does raise the attribute (the source comparison is the inclusive
`>=`), although the requirement does not exceed the 46 KiB threshold. -/
theorem c8_counterexample :
    DriverEvent.funcSetAttribute 5 7 (46 * 1024) ∈
        (processMeta driverBoundary 8 0 (initState, []) (0, metaWithCubin)).2 ∧
      ¬ 46 * 1024 < driverBoundary.smemSize 5 := by
  constructor
  · decide
  · decide

/-- C8, witness: the amended statement at the concrete boundary driver. -/
theorem c8_shared_mem_attribute_witness :
    ∃ tail, (processMeta driverBoundary 8 0 (initState, []) (0, metaWithCubin)).2 =
        [] ++ tail ∧
      (DriverEvent.funcSetAttribute 5 metaWithCubin.mFuncName (driverBoundary.smemSize 5) ∈
          tail ↔ 46 * 1024 ≤ driverBoundary.smemSize 5) ∧
      ∀ h n b, DriverEvent.funcSetAttribute h n b ∈ tail →
        46 * 1024 ≤ driverBoundary.smemSize 5 :=
  c8_shared_mem_attribute driverBoundary 8 0 initState [] 0 metaWithCubin 5 rfl rfl rfl

/-- Steps of `XQAKernelLoader::Get` (lines 373–384) that touch the static
per-device array `s_factory`. -/
inductive GetEvent where
  | readSlot (i : Nat)
  | assertCheck (cond : Bool)
  | writeSlot (i : Nat)
 deriving DecidableEq, Repr

/-- The declared size of the static array `s_factory` (32 entries). -/
def sFactorySize : Nat := 32

/-- The condition of the guard `assert(device_id <= 32)`. -/
def xqaLoaderGetGuard (device_id : Nat) : Bool := decide (device_id ≤ 32)

/-- The array-access/assert sequence of `XQAKernelLoader::Get`: the slot
`s_factory[device_id]` is read by the branch condition; only when it is
still null does the assert run, followed by the slot write; the slot is read
again by the return statement. -/
def xqaLoaderGetTrace (slotIsNull : Bool) (device_id : Nat) : List GetEvent :=
  [GetEvent.readSlot device_id] ++
    (if slotIsNull then
      [GetEvent.assertCheck (xqaLoaderGetGuard device_id), GetEvent.writeSlot device_id]
    else []) ++
    [GetEvent.readSlot device_id]

/-- C10: at device ordinal 32 the guard `assert(device_id <= 32)` passes,
yet index 32 is out of bounds for the 32-entry `s_factory` array; moreover
the very first array-touching step of `Get` is the slot read of the branch
condition, which precedes the assertion. -/
theorem c10_guard_admits_oob :
    xqaLoaderGetGuard 32 = true ∧ ¬ 32 < sFactorySize ∧
      (xqaLoaderGetTrace true 32).head? = some (GetEvent.readSlot 32) := by
  refine ⟨rfl, by decide, rfl⟩

end XQAPrecompiled
